import Mathlib

/-!
Shallow embedding of the vulnerability-score fetcher (files `cve_lookup.py`
and `cve_process.py`).

Modelling conventions:
* Scores (EPSS/CVSS floats) are modelled as `Rat`; the code only stores and
  compares them against `None`/truthiness, never arithmetic beyond `float()`
  parsing, so exact rationals are a faithful carrier.
* Timestamps are instants modelled as `Int` seconds.  The code stores
  `datetime.now().isoformat()` strings and re-parses them; every timestamp
  the program itself writes parses back, so entries carry the parsed instant.
* The SQLite tables (keyed by `cve_id TEXT PRIMARY KEY`, BINARY collation,
  `REPLACE INTO` semantics) are association lists with exact-string keys and
  replace-on-insert.
* Network requests are modelled by environment functions
  `String → Option Response`: `none` is a transport/JSON failure (the
  `except` branches), `some r` a parsed JSON body `r`.
-/

namespace VulScore

/-- `CACHE_EXPIRY_DAYS = 15` from `cve_lookup.py`. -/
def CACHE_EXPIRY_DAYS : Int := 15

/-- `batch_size = 100` from `process_and_update_csv`. -/
def batch_size : Nat := 100

/-- `is_cache_valid` (cve_lookup.py:125): an entry is valid iff
`now - last_updated < timedelta(days=15)`.  `dt` is the parsed instant of the
stored ISO string (all strings the program writes parse back; an unparsable
string takes the `except` branch and is permanently stale, not modelled since
the program never produces one). -/
def is_cache_valid (now dt : Int) : Bool :=
  decide (now - dt < CACHE_EXPIRY_DAYS * 86400)

-- -----------------------------------------------------------------
-- EPSS remote client (`fetch_epss`, cve_lookup.py:143)
-- -----------------------------------------------------------------

/-- One record of the EPSS response's `data` list.  The `epss` field:
`none` = key absent (so `entry.get("epss", 0.0)` yields the default `0.0`),
`some none` = present but not `float()`-parseable, `some (some q)` = parses
to the score `q`. -/
structure EpssRecord where
  epss : Option (Option Rat)
deriving Repr, DecidableEq

/-- Parsed EPSS JSON body. `data = none` models a body without a `"data"`
key. -/
structure EpssResponse where
  data : Option (List EpssRecord)
deriving Repr, DecidableEq

/-- `fetch_epss` (cve_lookup.py:143).  Argument is the parsed response the
network would deliver (`none` = request/parse raised, caught by the outer
`except`). Returns `(score?, raw payload?)`. -/
def fetch_epss (resp : Option EpssResponse) : Option Rat × Option EpssResponse :=
  match resp with
  | none => (none, none)
  | some d =>
    match d.data with
    | none => (none, none)
    | some [] => (none, none)
    | some (entry :: _) =>
      match entry.epss with
      | none => (some 0, some d)
      | some none => (none, some d)
      | some (some q) => (some q, some d)

-- -----------------------------------------------------------------
-- NVD remote client (`fetch_cvss`, cve_lookup.py:161)
-- -----------------------------------------------------------------

/-- One metric object under a CVSS scheme key (`cvssData` projected). -/
structure CvssMetric where
  baseScore : Rat
  vectorString : String
deriving Repr, DecidableEq

/-- The `metrics` object of a vulnerability record: each field is `some l`
when the scheme key (`cvssMetricV31` / `cvssMetricV30` / `cvssMetricV2`) is
present with list `l`, `none` when the key is absent. -/
structure CvssMetrics where
  v31 : Option (List CvssMetric)
  v30 : Option (List CvssMetric)
  v2 : Option (List CvssMetric)
deriving Repr, DecidableEq

/-- One entry of the `vulnerabilities` list (its `cve` object);
`metrics = none` models `vuln.get("metrics", {})` defaulting. -/
structure Vulnerability where
  metrics : Option CvssMetrics
deriving Repr, DecidableEq

/-- Parsed NVD JSON body; `vulnerabilities = none` models a body without the
`"vulnerabilities"` key. -/
structure NvdResponse where
  vulnerabilities : Option (List Vulnerability)
deriving Repr, DecidableEq

/-- `fetch_cvss` (cve_lookup.py:161).  Argument is the parsed response the
network would deliver (`none` = request/parse raised). The scheme keys are
tried in the fixed order V3.1, V3.0, V2; `metrics[key][0]` on an empty list
raises IndexError, caught by the bare `except` giving `(None, None, None)`;
when no scheme key is present the function falls through to
`return cvss, vector, data` with both metrics still `None` but the payload
returned. The api key only affects request headers, hence only the
environment's response, and is handled by the caller (`lookup_cve`). -/
def fetch_cvss (resp : Option NvdResponse) :
    Option Rat × Option String × Option NvdResponse :=
  match resp with
  | none => (none, none, none)
  | some d =>
    match d.vulnerabilities with
    | none => (none, none, none)
    | some [] => (none, none, none)
    | some (v :: _) =>
      match v.metrics.getD ⟨none, none, none⟩ with
      | ⟨some [], _, _⟩ => (none, none, none)
      | ⟨some (m :: _), _, _⟩ => (some m.baseScore, some m.vectorString, some d)
      | ⟨none, some [], _⟩ => (none, none, none)
      | ⟨none, some (m :: _), _⟩ => (some m.baseScore, some m.vectorString, some d)
      | ⟨none, none, some []⟩ => (none, none, none)
      | ⟨none, none, some (m :: _)⟩ => (some m.baseScore, some m.vectorString, some d)
      | ⟨none, none, none⟩ => (none, none, some d)

-- -----------------------------------------------------------------
-- Cache store (the four SQLite tables of `init_db`)
-- -----------------------------------------------------------------

/-- Row of `epss_cache` (value column `epss REAL`, `last_updated TEXT`). -/
structure EpssEntry where
  epss : Rat
  last_updated : Int
deriving Repr, DecidableEq

/-- Row of `cvss_cache` (`cvss REAL`, `vector TEXT` nullable,
`last_updated TEXT`). -/
structure CvssEntry where
  cvss : Rat
  vector : Option String
  last_updated : Int
deriving Repr, DecidableEq

/-- `REPLACE INTO` on a table keyed by `cve_id TEXT PRIMARY KEY`: drop any
row with the same key, insert the new row. -/
def replaceInto {α : Type} (table : List (String × α)) (key : String) (v : α) :
    List (String × α) :=
  (key, v) :: table.filter (fun p => p.1 != key)

/-- The database `cve_cache.db`: the four tables created by `init_db`. -/
structure Db where
  epss_cache : List (String × EpssEntry)
  cvss_cache : List (String × CvssEntry)
  epss_detail : List (String × EpssResponse × Int)
  cve_detail : List (String × NvdResponse × Int)

-- -----------------------------------------------------------------
-- Enrichment engine (`lookup_cve`, cve_lookup.py:207)
-- -----------------------------------------------------------------

/-- Environment of one `lookup_cve` call: current time, what the EPSS and NVD
endpoints would answer for each id, and the stored NVD api key
(`get_nvd_api_key()`, `none` = key file absent/corrupt). -/
structure Env where
  now : Int
  epssApi : String → Option EpssResponse
  apiKey : Option String
  nvdApi : String → Option NvdResponse

/-- Result of the EPSS half of `lookup_cve` (cve_lookup.py:219-252):
resolved score, database after any write-through, and how many times the
EPSS remote client was invoked (0 or 1). -/
structure Phase1Out where
  epss : Option Rat
  db : Db
  calls : Nat

/-- EPSS half of `lookup_cve` (cve_lookup.py:219-252): cache read, validity
check, remote fallback, `REPLACE INTO epss_cache` and (when a raw payload —
a nonempty dict — came back) `REPLACE INTO epss_detail`, both timestamped
now. -/
def epssPhase (env : Env) (db : Db) (cve_id : String) : Phase1Out :=
  match (match db.epss_cache.lookup cve_id with
         | some e => if is_cache_valid env.now e.last_updated then some e.epss else none
         | none => none) with
  | some v => ⟨some v, db, 0⟩
  | none =>
    match fetch_epss (env.epssApi cve_id) with
    | (none, _) => ⟨none, db, 1⟩
    | (some v, some r) =>
      ⟨some v,
       { db with
          epss_cache := replaceInto db.epss_cache cve_id ⟨v, env.now⟩,
          epss_detail := replaceInto db.epss_detail cve_id (r, env.now) },
       1⟩
    | (some v, none) =>
      ⟨some v, { db with epss_cache := replaceInto db.epss_cache cve_id ⟨v, env.now⟩ }, 1⟩

/-- Result of the CVSS half of `lookup_cve`: score, vector, database, and
how many times the NVD remote client was invoked (0 or 1). -/
structure Phase2Out where
  cvss : Option Rat
  vector : Option String
  db : Db
  calls : Nat

/-- CVSS half of `lookup_cve` (cve_lookup.py:257-297): cache read, validity
check, credential gate (`get_nvd_api_key`), remote fallback,
`REPLACE INTO cvss_cache` and (when a raw payload came back)
`REPLACE INTO cve_detail`. -/
def cvssPhase (env : Env) (db : Db) (cve_id : String) : Phase2Out :=
  match (match db.cvss_cache.lookup cve_id with
         | some e => if is_cache_valid env.now e.last_updated then some (e.cvss, e.vector) else none
         | none => none) with
  | some (v, vec) => ⟨some v, vec, db, 0⟩
  | none =>
    match env.apiKey with
    | none => ⟨none, none, db, 0⟩
    | some _ =>
      match fetch_cvss (env.nvdApi cve_id) with
      | (none, vec, _) => ⟨none, vec, db, 1⟩
      | (some v, vec, some r) =>
        ⟨some v, vec,
         { db with
            cvss_cache := replaceInto db.cvss_cache cve_id ⟨v, vec, env.now⟩,
            cve_detail := replaceInto db.cve_detail cve_id (r, env.now) },
         1⟩
      | (some v, vec, none) =>
        ⟨some v, vec,
         { db with cvss_cache := replaceInto db.cvss_cache cve_id ⟨v, vec, env.now⟩ },
         1⟩

/-- Everything a `lookup_cve` call produces.  The `full` flag of the source
only selects the return shape (`(epss, cvss)` vs the detail dict); all
fields of both shapes are carried here.  The two `calls` counters record
remote-client invocations for the observational claims. -/
structure LookupOut where
  epss : Option Rat
  cvss : Option Rat
  vector : Option String
  db : Db
  epssCalls : Nat
  cvssCalls : Nat

/-- `lookup_cve` (cve_lookup.py:207): the EPSS phase runs first, the CVSS
phase second against the database the first phase left behind. -/
def lookup_cve (env : Env) (db : Db) (cve_id : String) : LookupOut :=
  { epss := (epssPhase env db cve_id).epss,
    cvss := (cvssPhase env (epssPhase env db cve_id).db cve_id).cvss,
    vector := (cvssPhase env (epssPhase env db cve_id).db cve_id).vector,
    db := (cvssPhase env (epssPhase env db cve_id).db cve_id).db,
    epssCalls := (epssPhase env db cve_id).calls,
    cvssCalls := (cvssPhase env (epssPhase env db cve_id).db cve_id).calls }

-- -----------------------------------------------------------------
-- Batch refresher (`update_db`, cve_lookup.py:320)
-- -----------------------------------------------------------------

/-- Result of `update_db`: final database, how many identifiers had
`lookup_cve` re-run, and total remote invocations per client. -/
structure UpdateOut where
  db : Db
  lookupRuns : Nat
  epssCalls : Nat
  cvssCalls : Nat

/-- Body of the `update_db` loop for one snapshot row `(cve_id,
last_updated)`: refresh if `force or not is_cache_valid(last_updated)`,
otherwise skip. -/
def update_step (env : Env) (force : Bool) (acc : UpdateOut)
    (p : String × CvssEntry) : UpdateOut :=
  if force || !is_cache_valid env.now p.2.last_updated then
    { db := (lookup_cve env acc.db p.1).db,
      lookupRuns := acc.lookupRuns + 1,
      epssCalls := acc.epssCalls + (lookup_cve env acc.db p.1).epssCalls,
      cvssCalls := acc.cvssCalls + (lookup_cve env acc.db p.1).cvssCalls }
  else acc

/-- `update_db` (cve_lookup.py:320): iterate over a snapshot of
`SELECT cve_id, last_updated FROM cvss_cache` taken up front, threading the
database through the per-identifier refreshes. -/
def update_db (env : Env) (force : Bool) (db : Db) : UpdateOut :=
  db.cvss_cache.foldl (update_step env force) ⟨db, 0, 0, 0⟩

-- -----------------------------------------------------------------
-- Tabular pipeline (`process_and_update_csv`, cve_process.py:41)
-- -----------------------------------------------------------------

/-- One CSV data row as `csv.DictReader` yields it: column name to cell
text.  A missing binding models both an absent key and a `None` restval —
either is falsy in the blank-identifier test. -/
abbrev Row : Type := List (String × String)

/-- What `lookup_cve(cve_value)` looks like from the pipeline: either the
`(epss, cvss)` pair or a raised exception (`Except.error`), caught by the
per-row `except Exception` handler. -/
abbrev LookupFn : Type := String → Except Unit (Option Rat × Option Rat)

/-- Python `str.strip()`: remove leading and trailing whitespace. -/
def strip (s : String) : String :=
  ⟨((s.data.dropWhile Char.isWhitespace).reverse.dropWhile Char.isWhitespace).reverse⟩

/-- Python `str.lower()` on the ASCII column names the code compares. -/
def lower (s : String) : String := ⟨s.data.map Char.toLower⟩

/-- A cell written to the output CSV: the original text, a number, or one of
the literal markers. -/
inductive Cell where
  | num (q : Rat)
  | str (s : String)
deriving Repr, DecidableEq

/-- The marking expression `value if value else "Not Found"`
(cve_process.py:133-134): Python truthiness, so `None` and `0.0` both give
the literal marker. -/
def markValue : Option Rat → Cell
  | none => Cell.str "Not Found"
  | some q => if q = 0 then Cell.str "Not Found" else Cell.num q

/-- An output row: the input row plus the two appended cells. -/
structure OutRow where
  base : Row
  epss : Cell
  cvss : Cell
deriving Repr, DecidableEq

/-- The per-row body of the pipeline loop (cve_process.py:125-138): blank
identifier (`not cve_value or cve_value.strip() == ""`) marks both columns
`"Missing"`; otherwise the engine is called, `"Error"` on a raise,
`markValue` on each returned metric. -/
def markRow (lk : LookupFn) (col : String) (row : Row) : OutRow :=
  match row.lookup col with
  | none => ⟨row, Cell.str "Missing", Cell.str "Missing"⟩
  | some v =>
    if strip v = "" then ⟨row, Cell.str "Missing", Cell.str "Missing"⟩
    else
      match lk v with
      | Except.error _ => ⟨row, Cell.str "Error", Cell.str "Error"⟩
      | Except.ok (e, c) => ⟨row, markValue e, markValue c⟩

/-- `find_cve_column` (cve_process.py:31): first field whose lowercase form
is `"cveid"`. -/
def find_cve_column : List String → Option String
  | [] => none
  | name :: rest => if lower name = "cveid" then some name else find_cve_column rest

/-- The row loop of `process_and_update_csv` (cve_process.py:119-154).
`cancel k` is what the polled `cancel_check()` returns at the top of the
iteration that begins with `k` rows already processed (the polls happen in
strictly increasing `processed` order, so a function of the count is a
faithful model of the closure).  Returns
`(completed?, rows written to the file, processed count)`: a `true` first
component is the normal exit (final partial flush included), `false` the
cancel return, which abandons the unflushed buffer. -/
def pipelineLoop (lk : LookupFn) (cancel : Nat → Bool) (col : String) :
    List Row → Nat → List OutRow → List OutRow → Bool × List OutRow × Nat
  | [], processed, buffer, written => (true, written ++ buffer, processed)
  | row :: rest, processed, buffer, written =>
    if cancel processed then (false, written, processed)
    else
      if batch_size ≤ (buffer ++ [markRow lk col row]).length then
        pipelineLoop lk cancel col rest (processed + 1) []
          (written ++ (buffer ++ [markRow lk col row]))
      else
        pipelineLoop lk cancel col rest (processed + 1)
          (buffer ++ [markRow lk col row]) written

/-- The structural failures of `process_and_update_csv`:
`FileNotFoundError` (no case-insensitive match), the `RuntimeError` that
wraps the `ValueError("CSV file is empty.")` raised inside the load block,
and the `KeyError` for a missing CVEID column. -/
inductive PipelineError where
  | fileNotFound
  | emptyCsv
  | noCveColumn
deriving Repr, DecidableEq

/-- The spec's SchemaError category: no identifier column, or empty table. -/
def PipelineError.isSchemaError : PipelineError → Bool
  | PipelineError.emptyCsv => true
  | PipelineError.noCveColumn => true
  | PipelineError.fileNotFound => false

/-- `output_file = f"{base}_updated{ext}"` (cve_process.py:95-96), with
`(base, ext)` the `os.path.splitext` of the located file. -/
def output_file_name (base ext : String) : String := base ++ "_updated" ++ ext

/-- Observable outcome of one `process_and_update_csv` run:
`outFile = none` means the output file was never created (structural abort
happens before the `open(output_file, "w")`); otherwise it holds the header
fields and the data rows flushed to disk.  `retVal` is the Python return:
an exception, `None` (the bare `return` on cancel), or the output path. -/
structure PipeResult where
  outFile : Option (List String × List OutRow)
  retVal : Except PipelineError (Option String)
  processed : Nat

/-- `process_and_update_csv` (cve_process.py:41).  `source` is the parsed
content of the case-insensitively located file: `none` when
`find_file_case_insensitive` found nothing, `some (fieldnames, rows)` for
the header and the `list(csv.DictReader(f))` rows. -/
def process_and_update_csv (lk : LookupFn) (cancel : Nat → Bool)
    (base ext : String) (source : Option (List String × List Row)) : PipeResult :=
  match source with
  | none => ⟨none, Except.error PipelineError.fileNotFound, 0⟩
  | some (fieldnames, rows) =>
    if rows.isEmpty then ⟨none, Except.error PipelineError.emptyCsv, 0⟩
    else
      match find_cve_column fieldnames with
      | none => ⟨none, Except.error PipelineError.noCveColumn, 0⟩
      | some col =>
        match pipelineLoop lk cancel col rows 0 [] [] with
        | (true, written, p) =>
          ⟨some (fieldnames ++ ["epss", "cvss"], written),
           Except.ok (some (output_file_name base ext)), p⟩
        | (false, written, p) =>
          ⟨some (fieldnames ++ ["epss", "cvss"], written), Except.ok none, p⟩

-- -----------------------------------------------------------------
-- Shared helper lemmas
-- -----------------------------------------------------------------

/-- Reading back the key just written by `REPLACE INTO`. -/
theorem lookup_replaceInto {α : Type} (table : List (String × α)) (key : String)
    (v : α) : (replaceInto table key v).lookup key = some v := by
  simp [replaceInto, List.lookup]

/-- The EPSS phase never touches the `cvss_cache` table. -/
theorem epssPhase_cvss_cache (env : Env) (db : Db) (id : String) :
    (epssPhase env db id).db.cvss_cache = db.cvss_cache := by
  unfold epssPhase
  split
  · rfl
  · split
    · rfl
    · rfl
    · rfl

/-- A valid probability-cache entry makes the EPSS phase a pure cache hit. -/
theorem epssPhase_hit (env : Env) (db : Db) (id : String) (e : EpssEntry)
    (h1 : db.epss_cache.lookup id = some e)
    (h2 : is_cache_valid env.now e.last_updated = true) :
    epssPhase env db id = ⟨some e.epss, db, 0⟩ := by
  unfold epssPhase
  rw [h1]
  simp [h2]

/-- A probability-cache miss whose remote call also fails leaves the
database unchanged after one client invocation. -/
theorem epssPhase_miss (env : Env) (db : Db) (id : String)
    (h1 : db.epss_cache.lookup id = none)
    (h2 : fetch_epss (env.epssApi id) = (none, none)) :
    epssPhase env db id = ⟨none, db, 1⟩ := by
  unfold epssPhase
  rw [h1]
  simp [h2]

/-- A valid severity-cache entry makes the CVSS phase a pure cache hit. -/
theorem cvssPhase_hit (env : Env) (db : Db) (id : String) (e : CvssEntry)
    (h1 : db.cvss_cache.lookup id = some e)
    (h2 : is_cache_valid env.now e.last_updated = true) :
    cvssPhase env db id = ⟨some e.cvss, e.vector, db, 0⟩ := by
  unfold cvssPhase
  rw [h1]
  simp [h2]

-- -----------------------------------------------------------------
-- C6: probability client and the first record's field
-- -----------------------------------------------------------------

/-- C6 counterexample: a response whose `data` list holds one record with no
probability field makes `fetch_epss` return the fabricated default score
`0.0` (from `entry.get("epss", 0.0)`), not an absent score as the claim
requires. -/
theorem fetch_epss_missing_field_default :
    fetch_epss (some ⟨some [⟨none⟩]⟩) = (some 0, some ⟨some [⟨none⟩]⟩) := rfl

/-- C6 (amended): `fetch_epss` takes the score from the first record of the
returned list's probability field and returns it absent when the request
failed, the `data` key is missing, or the list is empty; but when the first
record lacks the probability field the default score `0.0` is returned, and
an unparsable field gives an absent score with the payload kept. -/
theorem fetch_epss_first_record_rule (q : Rat) (rest : List EpssRecord) :
    fetch_epss none = (none, none)
  ∧ fetch_epss (some ⟨none⟩) = (none, none)
  ∧ fetch_epss (some ⟨some []⟩) = (none, none)
  ∧ (fetch_epss (some ⟨some (⟨some (some q)⟩ :: rest)⟩)).1 = some q
  ∧ (fetch_epss (some ⟨some (⟨some none⟩ :: rest)⟩)).1 = none
  ∧ (fetch_epss (some ⟨some (⟨none⟩ :: rest)⟩)).1 = some 0 :=
  ⟨rfl, rfl, rfl, rfl, rfl, rfl⟩

-- -----------------------------------------------------------------
-- C8: severity scheme priority
-- -----------------------------------------------------------------

/-- C8: `fetch_cvss` selects the highest-precedence scheme present, in the
fixed order V3.1 over V3.0 over V2, takes the first metric object of the
selected scheme's list, and never merges schemes: the result of the V3.1
branch is independent of whatever the lower-priority keys hold, and
likewise for V3.0 over V2. -/
theorem fetch_cvss_scheme_priority (m : CvssMetric) (rest : List CvssMetric)
    (o30 o2 : Option (List CvssMetric)) (vs : List Vulnerability) :
    fetch_cvss (some ⟨some ({ metrics := some ⟨some (m :: rest), o30, o2⟩ } :: vs)⟩)
      = (some m.baseScore, some m.vectorString,
         some ⟨some ({ metrics := some ⟨some (m :: rest), o30, o2⟩ } :: vs)⟩)
  ∧ fetch_cvss (some ⟨some ({ metrics := some ⟨none, some (m :: rest), o2⟩ } :: vs)⟩)
      = (some m.baseScore, some m.vectorString,
         some ⟨some ({ metrics := some ⟨none, some (m :: rest), o2⟩ } :: vs)⟩)
  ∧ fetch_cvss (some ⟨some ({ metrics := some ⟨none, none, some (m :: rest)⟩ } :: vs)⟩)
      = (some m.baseScore, some m.vectorString,
         some ⟨some ({ metrics := some ⟨none, none, some (m :: rest)⟩ } :: vs)⟩) :=
  ⟨rfl, rfl, rfl⟩

-- -----------------------------------------------------------------
-- C1: per-row marking in the pipeline
-- -----------------------------------------------------------------

/-- C1 counterexample: the engine returns the numeric score `0.0` for the
row's identifier, yet the pipeline writes the literal `"Not Found"` into the
probability column (the marking uses Python truthiness, under which `0.0` is
falsy), contradicting the claim that a returned `0.0` is written as the
value. -/
theorem markRow_zero_score_not_found :
    markRow (fun _ => Except.ok (some 0, some 7)) "CveId" [("CveId", "CVE-2021-44228")]
      = ⟨[("CveId", "CVE-2021-44228")], Cell.str "Not Found", Cell.num 7⟩ := by
  decide

/-- C1 (amended): for every row whose identifier cell is non-blank, the
pipeline marks both output columns `"Error"` when the engine raised, and
otherwise marks each column with the returned metric — the numeric value
when it is present and non-zero, the literal `"Not Found"` when the metric
is absent or equals `0.0` (the marking uses truthiness, so a returned `0.0`
is written as `"Not Found"`). -/
theorem pipeline_row_marking (lk : LookupFn) (col : String) (row : Row)
    (v : String) (hv : row.lookup col = some v) (hnb : ¬ strip v = "") :
    (∀ u : Unit, lk v = Except.error u →
        markRow lk col row = ⟨row, Cell.str "Error", Cell.str "Error"⟩)
  ∧ (∀ e c : Option Rat, lk v = Except.ok (e, c) →
        markRow lk col row = ⟨row, markValue e, markValue c⟩)
  ∧ markValue none = Cell.str "Not Found"
  ∧ markValue (some 0) = Cell.str "Not Found"
  ∧ (∀ q : Rat, q ≠ 0 → markValue (some q) = Cell.num q) := by
  refine ⟨?_, ?_, rfl, by simp [markValue], ?_⟩
  · intro u hu
    simp [markRow, hv, hnb, hu]
  · intro e c hec
    simp [markRow, hv, hnb, hec]
  · intro q hq
    simp [markValue, hq]

/-- Witness for `pipeline_row_marking` at a concrete row and engine. -/
theorem pipeline_row_marking_witness :
    markRow (fun _ => Except.ok (some 3, some 7)) "CveId" [("CveId", "CVE-1")]
      = ⟨[("CveId", "CVE-1")], Cell.num 3, Cell.num 7⟩ :=
  ((pipeline_row_marking (fun _ => Except.ok (some 3, some 7)) "CveId"
      [("CveId", "CVE-1")] "CVE-1" (by decide) (by decide)).2.1
    (some 3) (some 7) rfl).trans (by decide)

-- -----------------------------------------------------------------
-- C4: a valid probability-cache entry suppresses the remote call
-- -----------------------------------------------------------------

/-- C4: when the probability cache holds an entry for the identifier whose
timestamp is within the freshness threshold, `lookup_cve` returns the cached
value and the probability client is never invoked. -/
theorem lookup_valid_epss_cache_hit (env : Env) (db : Db) (id : String)
    (e : EpssEntry) (h1 : db.epss_cache.lookup id = some e)
    (h2 : is_cache_valid env.now e.last_updated = true) :
    (lookup_cve env db id).epss = some e.epss
  ∧ (lookup_cve env db id).epssCalls = 0 := by
  simp [lookup_cve, epssPhase_hit env db id e h1 h2]

/-- Witness for `lookup_valid_epss_cache_hit`: a one-entry cache written at
instant 0 read back at instant 0. -/
theorem lookup_valid_epss_cache_hit_witness :
    (lookup_cve ⟨0, fun _ => none, none, fun _ => none⟩
        ⟨[("CVE-2024-0001", ⟨3, 0⟩)], [], [], []⟩ "CVE-2024-0001").epss = some 3
  ∧ (lookup_cve ⟨0, fun _ => none, none, fun _ => none⟩
        ⟨[("CVE-2024-0001", ⟨3, 0⟩)], [], [], []⟩ "CVE-2024-0001").epssCalls = 0 :=
  lookup_valid_epss_cache_hit ⟨0, fun _ => none, none, fun _ => none⟩
    ⟨[("CVE-2024-0001", ⟨3, 0⟩)], [], [], []⟩ "CVE-2024-0001" ⟨3, 0⟩
    (by decide) (by decide)

-- -----------------------------------------------------------------
-- C5: schema failures abort before processing
-- -----------------------------------------------------------------

/-- C5: an input table with no data rows, or whose header has no column
matching the fixed identifier name case-insensitively, makes the pipeline
abort with one of the two SchemaError conditions, with zero rows processed
and the output file never created. -/
theorem schema_error_aborts_early (lk : LookupFn) (cancel : Nat → Bool)
    (base ext : String) (fieldnames : List String) (rows : List Row)
    (h : rows = [] ∨ find_cve_column fieldnames = none) :
    ∃ err : PipelineError,
      process_and_update_csv lk cancel base ext (some (fieldnames, rows))
        = ⟨none, Except.error err, 0⟩
      ∧ err.isSchemaError = true := by
  rcases h with h | h
  · subst h
    exact ⟨PipelineError.emptyCsv, rfl, rfl⟩
  · cases rows with
    | nil => exact ⟨PipelineError.emptyCsv, rfl, rfl⟩
    | cons r rs =>
      refine ⟨PipelineError.noCveColumn, ?_, rfl⟩
      simp [process_and_update_csv, h]

/-- Witness for `schema_error_aborts_early`: a nonempty table whose only
column is `Name`. -/
theorem schema_error_aborts_early_witness :
    ∃ err : PipelineError,
      process_and_update_csv (fun _ => Except.ok (none, none)) (fun _ => false)
          "t" ".csv" (some (["Name"], [[("Name", "x")]]))
        = ⟨none, Except.error err, 0⟩
      ∧ err.isSchemaError = true :=
  schema_error_aborts_early (fun _ => Except.ok (none, none)) (fun _ => false)
    "t" ".csv" ["Name"] [[("Name", "x")]] (Or.inr (by decide))

-- -----------------------------------------------------------------
-- C7: identifier case sensitivity across the caches
-- -----------------------------------------------------------------

/-- C7 counterexample: the probability cache holds a fresh entry under the
upper-case identifier; looking up the identical identifier hits the cache
with no remote call, while looking up its lower-case variant misses and
invokes the probability client — the two case-variants do not address the
same cache entry. -/
theorem lookup_case_mismatch :
    (lookup_cve ⟨0, fun _ => none, none, fun _ => none⟩
        ⟨[("CVE-2024-0001", ⟨3, 0⟩)], [], [], []⟩ "CVE-2024-0001").epss = some 3
  ∧ (lookup_cve ⟨0, fun _ => none, none, fun _ => none⟩
        ⟨[("CVE-2024-0001", ⟨3, 0⟩)], [], [], []⟩ "CVE-2024-0001").epssCalls = 0
  ∧ (lookup_cve ⟨0, fun _ => none, none, fun _ => none⟩
        ⟨[("CVE-2024-0001", ⟨3, 0⟩)], [], [], []⟩ "cve-2024-0001").epss = none
  ∧ (lookup_cve ⟨0, fun _ => none, none, fun _ => none⟩
        ⟨[("CVE-2024-0001", ⟨3, 0⟩)], [], [], []⟩ "cve-2024-0001").epssCalls = 1 := by
  decide

/-- C7 (amended): identifiers are used verbatim (case-sensitively) as the
cache primary key — no case normalization is applied — so two
caller-supplied identifiers that differ only in letter case address distinct
cache entries: the stored identifier is served from cache with no remote
call, while its case-variant misses the cache and triggers a remote
invocation. -/
theorem identifier_keys_verbatim (env : Env) (id1 id2 : String) (e : EpssEntry)
    (hne : id1 ≠ id2) (_hcase : lower id1 = lower id2)
    (hvalid : is_cache_valid env.now e.last_updated = true)
    (hnet : env.epssApi id2 = none) :
    (lookup_cve env ⟨[(id1, e)], [], [], []⟩ id1).epss = some e.epss
  ∧ (lookup_cve env ⟨[(id1, e)], [], [], []⟩ id1).epssCalls = 0
  ∧ (lookup_cve env ⟨[(id1, e)], [], [], []⟩ id2).epss = none
  ∧ (lookup_cve env ⟨[(id1, e)], [], [], []⟩ id2).epssCalls = 1 := by
  have hhit := epssPhase_hit env ⟨[(id1, e)], [], [], []⟩ id1 e (by simp [List.lookup]) hvalid
  have hmiss := epssPhase_miss env ⟨[(id1, e)], [], [], []⟩ id2
    (by simp [List.lookup, beq_eq_false_iff_ne.mpr (Ne.symm hne)])
    (by rw [hnet]; rfl)
  exact ⟨by simp [lookup_cve, hhit], by simp [lookup_cve, hhit],
         by simp [lookup_cve, hmiss], by simp [lookup_cve, hmiss]⟩

/-- Witness for `identifier_keys_verbatim` at two concrete case-variant
identifiers. -/
theorem identifier_keys_verbatim_witness :
    (lookup_cve ⟨0, fun _ => none, none, fun _ => none⟩
        ⟨[("CVE-2020-0601", ⟨5, 0⟩)], [], [], []⟩ "CVE-2020-0601").epss = some 5
  ∧ (lookup_cve ⟨0, fun _ => none, none, fun _ => none⟩
        ⟨[("CVE-2020-0601", ⟨5, 0⟩)], [], [], []⟩ "CVE-2020-0601").epssCalls = 0
  ∧ (lookup_cve ⟨0, fun _ => none, none, fun _ => none⟩
        ⟨[("CVE-2020-0601", ⟨5, 0⟩)], [], [], []⟩ "cve-2020-0601").epss = none
  ∧ (lookup_cve ⟨0, fun _ => none, none, fun _ => none⟩
        ⟨[("CVE-2020-0601", ⟨5, 0⟩)], [], [], []⟩ "cve-2020-0601").epssCalls = 1 :=
  identifier_keys_verbatim ⟨0, fun _ => none, none, fun _ => none⟩
    "CVE-2020-0601" "cve-2020-0601" ⟨5, 0⟩ (by decide) (by decide) (by decide) rfl

-- -----------------------------------------------------------------
-- C9: upsert/lookup round-trip inside the freshness window
-- -----------------------------------------------------------------

/-- C9: upserting a metric and reading it back through `lookup_cve` before
the 15-day freshness threshold elapses returns the identical value, and the
freshness check classifies the written timestamp as valid; this holds for
both the probability and the severity cache. -/
theorem metric_roundtrip_valid (env : Env) (db : Db) (id : String) (v : Rat)
    (vec : Option String) (t : Int)
    (h : env.now - t < CACHE_EXPIRY_DAYS * 86400) :
    is_cache_valid env.now t = true
  ∧ (lookup_cve env
        { db with epss_cache := replaceInto db.epss_cache id ⟨v, t⟩ } id).epss
      = some v
  ∧ (lookup_cve env
        { db with cvss_cache := replaceInto db.cvss_cache id ⟨v, vec, t⟩ } id).cvss
      = some v := by
  have hval : is_cache_valid env.now t = true := by
    simpa [is_cache_valid] using h
  refine ⟨hval, ?_, ?_⟩
  · have hp := epssPhase_hit env
      { db with epss_cache := replaceInto db.epss_cache id ⟨v, t⟩ } id ⟨v, t⟩
      (lookup_replaceInto _ _ _) hval
    simp [lookup_cve, hp]
  · have h1 : ((epssPhase env
        { db with cvss_cache := replaceInto db.cvss_cache id ⟨v, vec, t⟩ } id).db).cvss_cache.lookup id
        = some ⟨v, vec, t⟩ := by
      rw [epssPhase_cvss_cache]
      exact lookup_replaceInto _ _ _
    have h2 := cvssPhase_hit env _ id ⟨v, vec, t⟩ h1 hval
    simp [lookup_cve, h2]

/-- Witness for `metric_roundtrip_valid`: write at instant 0, read at
instant 0. -/
theorem metric_roundtrip_valid_witness :
    is_cache_valid 0 0 = true
  ∧ (lookup_cve ⟨0, fun _ => none, none, fun _ => none⟩
        ⟨replaceInto [] "CVE-2019-0708" ⟨8, 0⟩, [], [], []⟩ "CVE-2019-0708").epss
      = some 8
  ∧ (lookup_cve ⟨0, fun _ => none, none, fun _ => none⟩
        ⟨[], replaceInto [] "CVE-2019-0708" ⟨8, some "AV:N", 0⟩, [], []⟩
        "CVE-2019-0708").cvss = some 8 :=
  metric_roundtrip_valid ⟨0, fun _ => none, none, fun _ => none⟩ ⟨[], [], [], []⟩
    "CVE-2019-0708" 8 (some "AV:N") 0 (by decide)

-- -----------------------------------------------------------------
-- C2: refresher selection under force
-- -----------------------------------------------------------------

/-- The `update_db` loop re-runs the lookup exactly on the snapshot rows
selected by `force or not is_cache_valid(last_updated)`. -/
theorem update_foldl_runs (env : Env) (force : Bool) :
    ∀ (rows : List (String × CvssEntry)) (acc : UpdateOut),
      (rows.foldl (update_step env force) acc).lookupRuns
        = acc.lookupRuns
          + (rows.filter
              (fun p => force || !is_cache_valid env.now p.2.last_updated)).length := by
  intro rows
  induction rows with
  | nil => intro acc; simp
  | cons p rest ih =>
    intro acc
    by_cases hc : (force || !is_cache_valid env.now p.2.last_updated) = true
    · simp only [List.foldl, List.filter, hc, ih, update_step, if_pos]
      simp only [List.length_cons]
      omega
    · rw [Bool.not_eq_true] at hc
      simp only [List.foldl, List.filter, hc, ih, update_step]
      simp

/-- C2 (amended): `refreshAll(force=true)` re-runs the engine's full lookup
for every identifier in the severity-cache snapshot regardless of freshness,
and `refreshAll(force=false)` re-runs it exactly for the identifiers whose
severity-cache entry is stale; the remote clients themselves are invoked
inside the lookup only when the corresponding metric cache entry is stale or
absent, not unconditionally under `force=true`. -/
theorem update_db_refresh_selection (env : Env) (db : Db) :
    (update_db env true db).lookupRuns = db.cvss_cache.length
  ∧ (update_db env false db).lookupRuns
      = (db.cvss_cache.filter
          (fun p => !is_cache_valid env.now p.2.last_updated)).length := by
  constructor
  · rw [update_db, update_foldl_runs]
    simp
  · rw [update_db, update_foldl_runs]
    simp

/-- C2 counterexample: a severity-cache whose single entry is fresh, with a
fresh probability entry for the same identifier; `update_db` with
`force=True` re-runs the lookup once but invokes neither remote client, so
`force=true` does not refetch the identifier remotely. -/
theorem update_db_force_fresh_no_remote :
    (update_db ⟨0, fun _ => none, some "key", fun _ => none⟩ true
        ⟨[("CVE-2021-34527", ⟨3, 0⟩)],
         [("CVE-2021-34527", ⟨9, some "AV:N", 0⟩)], [], []⟩).lookupRuns = 1
  ∧ (update_db ⟨0, fun _ => none, some "key", fun _ => none⟩ true
        ⟨[("CVE-2021-34527", ⟨3, 0⟩)],
         [("CVE-2021-34527", ⟨9, some "AV:N", 0⟩)], [], []⟩).epssCalls = 0
  ∧ (update_db ⟨0, fun _ => none, some "key", fun _ => none⟩ true
        ⟨[("CVE-2021-34527", ⟨3, 0⟩)],
         [("CVE-2021-34527", ⟨9, some "AV:N", 0⟩)], [], []⟩).cvssCalls = 0 := by
  decide

-- -----------------------------------------------------------------
-- C3: cancellation keeps exactly the completed batches
-- -----------------------------------------------------------------

/-- Loop invariant for a run whose cancellation poll first answers true at
processed count `N`: entering the loop with `p ≤ N` rows already processed,
the buffer holding the marked rows since the last flush and the file holding
the flushed full batches, the loop stops at `N` having written exactly the
completed batches. -/
theorem pipelineLoop_cancel_at (lk : LookupFn) (col : String) (all : List Row)
    (N : Nat) (hN : N < all.length) :
    ∀ d p, d = N - p → p ≤ N →
      pipelineLoop lk (fun k => decide (N ≤ k)) col (all.drop p) p
        (((all.take p).drop (batch_size * (p / batch_size))).map (markRow lk col))
        ((all.take (batch_size * (p / batch_size))).map (markRow lk col))
      = (false, (all.take (batch_size * (N / batch_size))).map (markRow lk col), N) := by
  intro d
  induction d with
  | zero =>
    intro p hd hp
    have hpN : p = N := by omega
    subst hpN
    rw [List.drop_eq_getElem_cons hN]
    simp only [pipelineLoop]
    simp
  | succ d ih =>
    intro p hd hp
    have hpN : p < N := by omega
    have hpl : p < all.length := by omega
    have hknot : ¬ N ≤ p := by omega
    have hlb : (((all.take p).drop (batch_size * (p / batch_size))).map
        (markRow lk col)).length = p % batch_size := by
      simp only [List.length_map, List.length_drop, List.length_take, batch_size]
      omega
    have htp : all.take (p + 1) = all.take p ++ [all[p]] := by
      rw [List.take_succ, List.getElem?_eq_getElem hpl]
      rfl
    rw [List.drop_eq_getElem_cons hpl]
    simp only [pipelineLoop]
    split
    · next hcancel =>
      exact absurd (of_decide_eq_true hcancel) hknot
    · split
      · next hcond =>
        rw [List.length_append, hlb] at hcond
        have h99 : p % batch_size = batch_size - 1 := by
          have := Nat.mod_lt p (show 0 < batch_size by decide)
          simp only [batch_size] at hcond this ⊢
          simp at hcond
          omega
        have hdiv : batch_size * ((p + 1) / batch_size) = p + 1 := by
          simp only [batch_size] at h99 ⊢
          omega
        have key := ih (p + 1) (by omega) (by omega)
        have hdrop : ((all.take (p + 1)).drop (batch_size * ((p + 1) / batch_size))).map
            (markRow lk col) = [] := by
          rw [hdiv, List.drop_eq_nil_of_le, List.map_nil]
          rw [List.length_take]
          omega
        rw [hdrop] at key
        have hwr : (all.take (batch_size * (p / batch_size))).map (markRow lk col)
              ++ (((all.take p).drop (batch_size * (p / batch_size))).map (markRow lk col)
                   ++ [markRow lk col all[p]])
            = (all.take (batch_size * ((p + 1) / batch_size))).map (markRow lk col) := by
          rw [hdiv, htp, List.map_append, ← List.append_assoc, ← List.map_append]
          congr 2
          conv_rhs =>
            rw [← List.take_append_drop (batch_size * (p / batch_size)) (all.take p)]
          congr 1
          rw [List.take_take]
          congr 1
          simp only [batch_size]
          omega
        rw [hwr]
        exact key
      · next hcond =>
        rw [List.length_append, hlb] at hcond
        have h99 : p % batch_size ≠ batch_size - 1 := by
          simp only [batch_size] at hcond ⊢
          simp at hcond
          omega
        have hdiv : (p + 1) / batch_size = p / batch_size := by
          simp only [batch_size] at h99 ⊢
          omega
        have key := ih (p + 1) (by omega) (by omega)
        rw [hdiv] at key
        have hbuf : ((all.take (p + 1)).drop (batch_size * (p / batch_size))).map
              (markRow lk col)
            = (((all.take p).drop (batch_size * (p / batch_size))).map (markRow lk col))
                ++ [markRow lk col all[p]] := by
          rw [htp, List.drop_append_of_le_length, List.map_append]
          · simp
          · rw [List.length_take]
            simp only [batch_size]
            omega
        rw [hbuf] at key
        exact key

/-- C3: when the cancellation poll first returns true after `N` rows have
been processed (with at least one row still unprocessed), the pipeline stops
at the top of the loop with `processed = N`, returns the cancel result, and
the output file holds the header plus exactly the first
`batch_size * (N / batch_size)` marked rows in original order — the
completed batches of 100 — with no trailing partial batch. -/
theorem cancel_keeps_completed_batches (lk : LookupFn) (base ext : String)
    (fieldnames : List String) (col : String) (rows : List Row) (N : Nat)
    (hcol : find_cve_column fieldnames = some col) (hN : N < rows.length) :
    process_and_update_csv lk (fun k => decide (N ≤ k)) base ext
        (some (fieldnames, rows))
      = ⟨some (fieldnames ++ ["epss", "cvss"],
              (rows.take (batch_size * (N / batch_size))).map (markRow lk col)),
         Except.ok none, N⟩ := by
  have hie : rows.isEmpty = false := by
    cases rows with
    | nil => simp at hN
    | cons a l => rfl
  have hloop := pipelineLoop_cancel_at lk col rows N hN N 0 (by omega) (by omega)
  simp only [Nat.zero_div, Nat.mul_zero, List.take_zero, List.drop_nil, List.map_nil,
    List.drop_zero] at hloop
  simp only [process_and_update_csv, hie, Bool.false_eq_true, if_false, hcol, hloop]

/-- Witness for `cancel_keeps_completed_batches`: two rows, cancel first
polls true with one row processed — the file keeps the header and no data
rows (no batch of 100 completed). -/
theorem cancel_keeps_completed_batches_witness :
    process_and_update_csv (fun _ => Except.ok (none, none)) (fun k => decide (1 ≤ k))
        "scan" ".csv" (some (["CVEID"], [[("CVEID", "CVE-1")], [("CVEID", "CVE-2")]]))
      = ⟨some (["CVEID", "epss", "cvss"], []), Except.ok none, 1⟩ :=
  cancel_keeps_completed_batches (fun _ => Except.ok (none, none)) "scan" ".csv"
    ["CVEID"] "CVEID" [[("CVEID", "CVE-1")], [("CVEID", "CVE-2")]] 1
    (by decide) (by decide)

-- -----------------------------------------------------------------
-- C10: cancelled runs return no path, completed runs return the path
-- -----------------------------------------------------------------

/-- C10: with a valid source table, a run whose loop hits the cancel return
yields no output path even though the output file exists (header plus the
flushed rows), while only a run whose loop completes all rows returns the
output path. -/
theorem cancel_returns_no_path (lk : LookupFn) (cancel : Nat → Bool)
    (base ext : String) (fieldnames : List String) (col : String)
    (rows : List Row) (hcol : find_cve_column fieldnames = some col)
    (hne : rows ≠ []) :
    (∀ w p, pipelineLoop lk cancel col rows 0 [] [] = (false, w, p) →
        process_and_update_csv lk cancel base ext (some (fieldnames, rows))
          = ⟨some (fieldnames ++ ["epss", "cvss"], w), Except.ok none, p⟩)
  ∧ (∀ w p, pipelineLoop lk cancel col rows 0 [] [] = (true, w, p) →
        process_and_update_csv lk cancel base ext (some (fieldnames, rows))
          = ⟨some (fieldnames ++ ["epss", "cvss"], w),
             Except.ok (some (output_file_name base ext)), p⟩) := by
  have hie : rows.isEmpty = false := by
    cases rows with
    | nil => exact absurd rfl hne
    | cons a l => rfl
  constructor
  · intro w p hl
    simp only [process_and_update_csv, hie, Bool.false_eq_true, if_false, hcol, hl]
  · intro w p hl
    simp only [process_and_update_csv, hie, Bool.false_eq_true, if_false, hcol, hl]

/-- Witness for `cancel_returns_no_path`: cancellation signalled before the
first row — the file exists with only the header and the run returns
`None`. -/
theorem cancel_returns_no_path_witness :
    process_and_update_csv (fun _ => Except.ok (none, none)) (fun _ => true) "x" ".csv"
        (some (["CVEID"], [[("CVEID", "CVE-1")]]))
      = ⟨some (["CVEID", "epss", "cvss"], []), Except.ok none, 0⟩ :=
  (cancel_returns_no_path (fun _ => Except.ok (none, none)) (fun _ => true) "x" ".csv"
      ["CVEID"] "CVEID" [[("CVEID", "CVE-1")]] (by decide) (by decide)).1 [] 0 (by decide)

end VulScore
